import Mathlib

/-!
Shallow embedding of the getlantern/http-proxy-lantern proxy startup logic
(`http_proxy.go`) together with the ping middleware (`ping/ping.go`), the pro
configuration message handler (`profilter/pro_config.go`) and the HTTPS-upgrade
filter (whose package source is known only through its test and the spec).

Pure functions of the Go source become Lean functions; the filter chain is
modelled as a list of filter tags in exactly the order the source assembles
them; fallible Go calls (returning `error`) become `Except String`.
-/

/-- Tags for the filters appearing in `createFilterChain` and `ListenAndServe`
(`http_proxy.go`).  `onFirstOnly f` models `proxy.OnFirstOnly(f)`; `tokenFilter
tok` models `tokenfilter.New(tok)`. -/
inductive ProxyFilter where
  | bbr : ProxyFilter
  | rateLimit : ProxyFilter
  | tokenFilter (token : String) : ProxyFilter
  | googleFilter : ProxyFilter
  | blockLocal : ProxyFilter
  | ping : ProxyFilter
  | versionCheckFilter : ProxyFilter
  | discardInitialPersistentRequest : ProxyFilter
  | addForwardedFor : ProxyFilter
  | httpsUpgrade : ProxyFilter
  | restrictConnectPorts : ProxyFilter
  | recordOp : ProxyFilter
  | cleanHeaders : ProxyFilter
  | quicMiddleware : ProxyFilter
  | wssMiddleware : ProxyFilter
  | opsFilter : ProxyFilter
  | onFirstOnly (f : ProxyFilter) : ProxyFilter
deriving DecidableEq, Repr

/-- The fields of the Go `Proxy` struct that the functions modelled here read.
Go `int` fields become `Int`; Go `float64` fields appear only in assignments
and `> 0` comparisons, so they are modelled as `ℚ`. -/
structure Proxy where
  TestingLocal : Bool := false
  HTTPS : Bool := false
  Token : String := ""
  Benchmark : Bool := false
  VersionCheck : Bool := false
  QUICIETFAddr : String := ""
  WSSAddr : String := ""
  MultiplexProtocol : String := ""
  SmuxVersion : Int := 0
  SmuxMaxFrameSize : Int := 0
  SmuxMaxReceiveBuffer : Int := 0
  SmuxMaxStreamBuffer : Int := 0
  PsmuxVersion : Int := 0
  PsmuxMaxFrameSize : Int := 0
  PsmuxMaxReceiveBuffer : Int := 0
  PsmuxMaxStreamBuffer : Int := 0
  PsmuxDisablePadding : Bool := false
  PsmuxMaxPaddingRatio : ℚ := 0
  PsmuxMaxPaddedSize : Int := 0
  PsmuxDisableAggressivePadding : Bool := false
  PsmuxAggressivePadding : Int := 0
  PsmuxAggressivePaddingRatio : ℚ := 0

/-- `Proxy.setBenchmarkMode` (`http_proxy.go` lines 513-519): in benchmark mode
force HTTPS on and force the token to the fixed value "bench". -/
def setBenchmarkMode (p : Proxy) : Proxy :=
  if p.Benchmark then { p with HTTPS := true, Token := "bench" } else p

/-- `Proxy.createFilterChain` (`http_proxy.go` lines 526-624), as the ordered
list of filters joined/appended to the chain.  `versionCheckOK` stands for
whether the external `versioncheck.New` call succeeded (on failure the filter
is skipped with only a log message). -/
def createFilterChain (p : Proxy) (versionCheckOK : Bool) : List ProxyFilter :=
  [ProxyFilter.bbr]
    ++ (if p.Benchmark then [ProxyFilter.rateLimit]
        else [ProxyFilter.onFirstOnly (ProxyFilter.tokenFilter p.Token)])
    ++ [ProxyFilter.onFirstOnly ProxyFilter.googleFilter]
    ++ (if !p.TestingLocal then [ProxyFilter.blockLocal] else [])
    ++ [ProxyFilter.ping]
    ++ (if p.VersionCheck && versionCheckOK then [ProxyFilter.versionCheckFilter] else [])
    ++ [ProxyFilter.discardInitialPersistentRequest, ProxyFilter.addForwardedFor,
        ProxyFilter.httpsUpgrade, ProxyFilter.restrictConnectPorts, ProxyFilter.recordOp,
        ProxyFilter.cleanHeaders]

/-- The filter chain as fully assembled by `ListenAndServe` (`http_proxy.go`
lines 203, 214-225): `setBenchmarkMode` runs first, then the chain from
`createFilterChain` gets the QUIC middleware prepended when a QUIC address is
configured, the WSS middleware appended when a WSS address is configured, and
finally the ops filter prepended. -/
def assembleChain (p : Proxy) (versionCheckOK : Bool) : List ProxyFilter :=
  let p2 := setBenchmarkMode p
  let c0 := createFilterChain p2 versionCheckOK
  let c1 := if p2.QUICIETFAddr ≠ "" then ProxyFilter.quicMiddleware :: c0 else c0
  let c2 := if p2.WSSAddr ≠ "" then c1 ++ [ProxyFilter.wssMiddleware] else c1
  ProxyFilter.opsFilter :: c2

/-- The `smux.Config` fields that `buildSmuxProtocol` may override.  The
library default (`smux.DefaultConfig()`) is external to this repository, so it
is passed in as a value of this structure. -/
structure SmuxConfig where
  Version : Int
  MaxFrameSize : Int
  MaxReceiveBuffer : Int
  MaxStreamBuffer : Int
deriving DecidableEq, Repr

/-- The `psmux.Config` fields that `buildPsmuxProtocol` may override.  The
library default (`psmux.DefaultConfig()`) is external to this repository, so it
is passed in as a value of this structure. -/
structure PsmuxConfig where
  Version : Int
  MaxFrameSize : Int
  MaxReceiveBuffer : Int
  MaxStreamBuffer : Int
  MaxPaddingRatio : ℚ
  MaxPaddedSize : Int
  AggressivePadding : Int
  AggressivePaddingRatio : ℚ
deriving DecidableEq, Repr

/-- A configured `cmux.Protocol`: either the smux variant or the psmux
variant, with the configuration it was built from. -/
inductive CmuxProtocol where
  | smux (config : SmuxConfig) : CmuxProtocol
  | psmux (config : PsmuxConfig) : CmuxProtocol
deriving DecidableEq, Repr

/-- The configuration computed by `Proxy.buildSmuxProtocol` (`http_proxy.go`
lines 413-428): start from the library default and override each field only
when the corresponding `Proxy` field is positive. -/
def buildSmuxConfig (defaultConfig : SmuxConfig) (p : Proxy) : SmuxConfig :=
  let c := defaultConfig
  let c := if p.SmuxVersion > 0 then { c with Version := p.SmuxVersion } else c
  let c := if p.SmuxMaxFrameSize > 0 then { c with MaxFrameSize := p.SmuxMaxFrameSize } else c
  let c := if p.SmuxMaxReceiveBuffer > 0 then { c with MaxReceiveBuffer := p.SmuxMaxReceiveBuffer } else c
  let c := if p.SmuxMaxStreamBuffer > 0 then { c with MaxStreamBuffer := p.SmuxMaxStreamBuffer } else c
  c

/-- `Proxy.buildSmuxProtocol` (`http_proxy.go` lines 413-428); the Go function
returns `(cmux.NewSmuxProtocol(config), nil)`, i.e. it never fails. -/
def buildSmuxProtocol (defaultConfig : SmuxConfig) (p : Proxy) : Except String CmuxProtocol :=
  Except.ok (CmuxProtocol.smux (buildSmuxConfig defaultConfig p))

/-- The configuration computed by `Proxy.buildPsmuxProtocol` (`http_proxy.go`
lines 430-469): start from the library default, override the version/size
fields when positive; then, if `PsmuxDisablePadding` is set, zero all four
padding fields; otherwise apply the padding overrides, with
`PsmuxDisableAggressivePadding` zeroing the two aggressive-padding fields. -/
def buildPsmuxConfig (defaultConfig : PsmuxConfig) (p : Proxy) : PsmuxConfig :=
  let c := defaultConfig
  let c := if p.PsmuxVersion > 0 then { c with Version := p.PsmuxVersion } else c
  let c := if p.PsmuxMaxFrameSize > 0 then { c with MaxFrameSize := p.PsmuxMaxFrameSize } else c
  let c := if p.PsmuxMaxReceiveBuffer > 0 then { c with MaxReceiveBuffer := p.PsmuxMaxReceiveBuffer } else c
  let c := if p.PsmuxMaxStreamBuffer > 0 then { c with MaxStreamBuffer := p.PsmuxMaxStreamBuffer } else c
  if p.PsmuxDisablePadding then
    { c with MaxPaddingRatio := 0, MaxPaddedSize := 0,
             AggressivePadding := 0, AggressivePaddingRatio := 0 }
  else
    let c := if p.PsmuxMaxPaddingRatio > 0 then { c with MaxPaddingRatio := p.PsmuxMaxPaddingRatio } else c
    let c := if p.PsmuxMaxPaddedSize > 0 then { c with MaxPaddedSize := p.PsmuxMaxPaddedSize } else c
    if p.PsmuxDisableAggressivePadding then
      { c with AggressivePadding := 0, AggressivePaddingRatio := 0 }
    else
      let c := if p.PsmuxAggressivePadding > 0 then { c with AggressivePadding := p.PsmuxAggressivePadding } else c
      let c := if p.PsmuxAggressivePaddingRatio > 0 then { c with AggressivePaddingRatio := p.PsmuxAggressivePaddingRatio } else c
      c

/-- `Proxy.buildPsmuxProtocol` (`http_proxy.go` lines 430-469); the Go
function returns `(cmuxprivate.NewPsmuxProtocol(config), nil)`. -/
def buildPsmuxProtocol (defaultConfig : PsmuxConfig) (p : Proxy) : Except String CmuxProtocol :=
  Except.ok (CmuxProtocol.psmux (buildPsmuxConfig defaultConfig p))

/-- A `net.Listener` value as produced by the listener builders in
`http_proxy.go`, recording the decorator layers that were applied. -/
inductive Listener where
  | base (addr : String) : Listener
  | tls (inner : Listener) : Listener
  | obfs4 (inner : Listener) : Listener
  | lampshade (inner : Listener) : Listener
  | tlsmasq (inner : Listener) : Listener
  | cmux (proto : CmuxProtocol) (inner : Listener) : Listener
  | bbrWrap (inner : Listener) : Listener
  | idle (inner : Listener) : Listener
deriving DecidableEq, Repr

/-- `Proxy.wrapMultiplexing` (`http_proxy.go` lines 383-411): build the inner
listener, select the multiplex protocol (smux by default or on explicit
"smux", psmux on explicit "psmux", an error for any other name) and wrap the
listener with it. -/
def wrapMultiplexing (p : Proxy) (smuxDefault : SmuxConfig) (psmuxDefault : PsmuxConfig)
    (fn : String → Except String Listener) (addr : String) : Except String Listener :=
  match fn addr with
  | Except.error e => Except.error e
  | Except.ok l =>
    match (if p.MultiplexProtocol = "" ∨ p.MultiplexProtocol = "smux" then
             buildSmuxProtocol smuxDefault p
           else if p.MultiplexProtocol = "psmux" then
             buildPsmuxProtocol psmuxDefault p
           else
             Except.error ("unknown multiplex protocol: " ++ p.MultiplexProtocol)) with
    | Except.error e => Except.error e
    | Except.ok proto => Except.ok (Listener.cmux proto l)

/-- The registration state accumulated in `ListenAndServe` (`http_proxy.go`
lines 258-259): the `listenerProtocols` and `allListeners` slices. -/
structure RegState where
  listenerProtocols : List String
  allListeners : List Listener
deriving DecidableEq, Repr

/-- The `addListenerIfNecessary` closure of `ListenAndServe` (`http_proxy.go`
lines 260-272): an empty address is a no-op; otherwise run the builder,
propagate its error, and on success append the protocol label and the
listener. -/
def addListenerIfNecessary (proto addr : String) (fn : String → Except String Listener)
    (st : RegState) : Except String RegState :=
  if addr = "" then Except.ok st
  else
    match fn addr with
    | Except.error e => Except.error e
    | Except.ok l =>
      Except.ok { listenerProtocols := st.listenerProtocols ++ [proto],
                  allListeners := st.allListeners ++ [l] }

/-- `Proxy.wrapTLSIfNecessary` (`http_proxy.go` lines 363-381): build the
inner listener; when global HTTPS mode is on, additionally wrap it with the
TLS listener (`tlslistener.Wrap` is external and may fail, so it is passed in
as `tlsWrap`). -/
def wrapTLSIfNecessary (p : Proxy) (tlsWrap : Listener → Except String Listener)
    (fn : String → Except String Listener) (addr : String) : Except String Listener :=
  match fn addr with
  | Except.error e => Except.error e
  | Except.ok l => if p.HTTPS then tlsWrap l else Except.ok l

/-- `Proxy.listenHTTP` (`http_proxy.go` lines 638-647). -/
def listenHTTP (baseListen : String → Bool → Except String Listener)
    (addr : String) : Except String Listener :=
  match baseListen addr true with
  | Except.error e => Except.error ("Unable to listen for HTTP: " ++ e)
  | Except.ok l => Except.ok l

/-- `Proxy.listenOBFS4` (`http_proxy.go` lines 649-663): build the base
listener, then wrap it with the OBFS4 listener (`obfs4listener.Wrap` is
external, passed in as `obfs4Wrap`); a wrap failure closes the base listener
and returns an error. -/
def listenOBFS4 (obfs4Wrap : Listener → Except String Listener)
    (baseListen : String → Bool → Except String Listener)
    (addr : String) : Except String Listener :=
  match baseListen addr true with
  | Except.error e => Except.error ("Unable to listen for OBFS4: " ++ e)
  | Except.ok l =>
    match obfs4Wrap l with
    | Except.error e => Except.error ("Unable to wrap listener with OBFS4: " ++ e)
    | Except.ok wrapped => Except.ok wrapped

/-- `Proxy.listenLampshade` (`http_proxy.go` lines 665-688) with
`trackBBR = true` as at the call site: a `lampshade.Wrap` failure calls
`log.Fatalf`, which aborts the whole process rather than returning, so only
the successful wrap is modelled; on success the listener is wrapped for BBR
tracking and then with idle timing. -/
def listenLampshade (baseListen : String → Bool → Except String Listener)
    (addr : String) : Except String Listener :=
  match baseListen addr false with
  | Except.error e => Except.error e
  | Except.ok l => Except.ok (Listener.idle (Listener.bbrWrap (Listener.lampshade l)))

/-- `Proxy.listenTLSMasq` (`http_proxy.go` lines 690-711): a `tlsmasq.Wrap`
failure calls `log.Fatalf` (process abort), so only the successful wrap is
modelled. -/
def listenTLSMasq (baseListen : String → Bool → Except String Listener)
    (addr : String) : Except String Listener :=
  match baseListen addr false with
  | Except.error e => Except.error e
  | Except.ok l => Except.ok (Listener.tlsmasq l)

/-- The `addresses` struct of `http_proxy.go` (lines 161-168). -/
structure Addresses where
  obfs4 : String
  obfs4Multiplex : String
  http : String
  httpMultiplex : String
  lampshade : String
  tlsmasq : String
deriving DecidableEq, Repr

/-- The `addListenersForBaseTransport` closure of `ListenAndServe`
(`http_proxy.go` lines 274-300): register the obfs4, obfs4_multiplex,
lampshade, https, https_multiplex and tlsmasq transports in that order,
returning the first error encountered. -/
def addListenersForBaseTransport (p : Proxy) (smuxDefault : SmuxConfig)
    (psmuxDefault : PsmuxConfig)
    (obfs4Wrap tlsWrap : Listener → Except String Listener)
    (baseListen : String → Bool → Except String Listener)
    (addrs : Addresses) (st : RegState) : Except String RegState := do
  let st ← addListenerIfNecessary "obfs4" addrs.obfs4
    (listenOBFS4 obfs4Wrap baseListen) st
  let st ← addListenerIfNecessary "obfs4_multiplex" addrs.obfs4Multiplex
    (wrapMultiplexing p smuxDefault psmuxDefault (listenOBFS4 obfs4Wrap baseListen)) st
  let st ← addListenerIfNecessary "lampshade" addrs.lampshade
    (listenLampshade baseListen) st
  let st ← addListenerIfNecessary "https" addrs.http
    (wrapTLSIfNecessary p tlsWrap (listenHTTP baseListen)) st
  let st ← addListenerIfNecessary "https_multiplex" addrs.httpMultiplex
    (wrapMultiplexing p smuxDefault psmuxDefault
      (wrapTLSIfNecessary p tlsWrap (listenHTTP baseListen))) st
  let st ← addListenerIfNecessary "tlsmasq" addrs.tlsmasq
    (wrapMultiplexing p smuxDefault psmuxDefault (listenTLSMasq baseListen)) st
  return st

/-- The three ping sizes of `ping/ping.go`, used to name which moving average
a request updates. -/
inductive PingSize where
  | small : PingSize
  | medium : PingSize
  | large : PingSize
deriving DecidableEq, Repr

/-- Outcome of `PingMiddleware.ServeHTTP` (`ping/ping.go` lines 61-98):
either the request passes through to the next handler unmodified, or the
middleware replies with a status code, a number of writes of the fixed 1 KB
`data` payload, and the moving average it updates (if any). -/
inductive PingOutcome where
  | passThrough : PingOutcome
  | reply (status : Nat) (dataWrites : Nat) (updated : Option PingSize) : PingOutcome
deriving DecidableEq, Repr

/-- `PingMiddleware.ServeHTTP` (`ping/ping.go` lines 61-98) as a function of
the request's ping-header value ("" meaning the header is absent): no header
passes through; "small"/"medium"/"large" reply 200 with 1/100/10000 writes of
the 1 KB payload and update the corresponding moving average; any other value
replies 400 (with an error text, not the payload) and updates no average. -/
def pingServeHTTP (pingHeader : String) : PingOutcome :=
  if pingHeader = "" then PingOutcome.passThrough
  else if pingHeader = "small" then PingOutcome.reply 200 1 (some PingSize.small)
  else if pingHeader = "medium" then PingOutcome.reply 200 100 (some PingSize.medium)
  else if pingHeader = "large" then PingOutcome.reply 200 10000 (some PingSize.large)
  else PingOutcome.reply 400 0 none

/-- The response body produced by a `pingServeHTTP` reply, given the fixed
1024-byte `data` payload (random at process start, hence a parameter): the
payload is written `dataWrites` times (`ping/ping.go` lines 90-93). -/
def pingBody (payload : List Char) : PingOutcome → List Char
  | PingOutcome.passThrough => []
  | PingOutcome.reply _ n _ => (List.replicate n payload).flatten

/-- `proConfig.processUserRemoveMessage` (`profilter/pro_config.go` lines
37-49), with the `userTokens` map modelled as an association list from user to
token.  Returns the error (if any) together with the state of the map after
the call: a malformed message or an unknown user leaves the map untouched;
otherwise the user's entry is deleted. -/
def processUserRemoveMessage (msg : List String) (userTokens : List (String × String)) :
    Except String Unit × List (String × String) :=
  if msg.length ≠ 2 then (Except.error "Malformed REMOVE message", userTokens)
  else
    let user := msg.getD 1 ""
    match userTokens.lookup user with
    | none => (Except.error "User in REMOVE message was not assigned to server", userTokens)
    | some _ => (Except.ok (), userTokens.filter (fun kv => kv.1 != user))

/-- A request as seen by the HTTPS-upgrade filter: its method, its URL scheme
and its host (possibly carrying a port). -/
structure Request where
  method : String
  urlScheme : String
  host : String
deriving DecidableEq, Repr

/-- The hostname part of a host that may carry a ":port" suffix. -/
def hostWithoutPort (h : String) : String :=
  String.mk (h.toList.takeWhile (fun c => c != ':'))

/-- Modelled from the spec: the `httpsupgrade` package's source is not in the
repository (only its test, `TestRedirect`, is).  Per the spec, a non-CONNECT
request whose host matches the upgrade policy has its URL scheme rewritten to
"https" and its host rewritten to the hostname with port 443; a CONNECT
request is never scheme-rewritten; a request whose host does not match the
policy is left unchanged.  The policy (which hosts are upgrade-able) is passed
in as a predicate on the hostname. -/
def httpsUpgradeApply (policy : String → Bool) (req : Request) : Request :=
  if req.method ≠ "CONNECT" ∧ policy (hostWithoutPort req.host) = true then
    { req with urlScheme := "https", host := hostWithoutPort req.host ++ ":443" }
  else req

/-- An example upgrade policy with the two upgrade-able hosts used in the
spec's test scenarios. -/
def upgPolicy (h : String) : Bool :=
  h == "config.example.org" || h == "api.example.org"

/-- Captured submatches of a regex match: group index paired with the
captured characters. -/
abbrev Caps := List (Nat × List Char)

/-- Regular-expression syntax sufficient for `proxyNameRegex`
(`http_proxy.go` line 69): literals, character classes, concatenation, greedy
option, greedy one-or-more over a class, exact repetition of a class, and
capturing groups. -/
inductive RE where
  | eps : RE
  | lit (c : Char) : RE
  | cls (p : Char → Bool) : RE
  | seq (a b : RE) : RE
  | opt (a : RE) : RE
  | plusCls (p : Char → Bool) : RE
  | repCls (p : Char → Bool) (n : Nat) : RE
  | group (idx : Nat) (a : RE) : RE

/-- Length of the maximal prefix of `s` whose characters all satisfy `p`. -/
def runLen (p : Char → Bool) : List Char → Nat
  | [] => 0
  | c :: s => if p c then runLen p s + 1 else 0

/-- Backtracking helper for greedy one-or-more: try consuming `n` characters
first, then `n - 1`, ... down to `1`. -/
def tryDrops {α : Type} (s : List Char) (caps : Caps)
    (k : List Char → Caps → Option α) : Nat → Option α
  | 0 => none
  | n + 1 =>
    match k (s.drop (n + 1)) caps with
    | some r => some r
    | none => tryDrops s caps k n

/-- Backtracking regex matcher in continuation-passing style, with Go's
(Perl-like) leftmost-first submatch semantics: option and one-or-more are
greedy but backtrack, and each capturing group records the text it consumed
in the capture list passed to the continuation. -/
def reMatch {α : Type} : RE → List Char → Caps → (List Char → Caps → Option α) → Option α
  | RE.eps, s, caps, k => k s caps
  | RE.lit _, [], _, _ => none
  | RE.lit c, x :: s, caps, k => if x = c then k s caps else none
  | RE.cls _, [], _, _ => none
  | RE.cls p, x :: s, caps, k => if p x then k s caps else none
  | RE.seq a b, s, caps, k => reMatch a s caps (fun s2 caps2 => reMatch b s2 caps2 k)
  | RE.opt a, s, caps, k =>
    (match reMatch a s caps k with
     | some r => some r
     | none => k s caps)
  | RE.plusCls p, s, caps, k => tryDrops s caps k (runLen p s)
  | RE.repCls p n, s, caps, k =>
    if n ≤ s.length ∧ (s.take n).all p then k (s.drop n) caps else none
  | RE.group i a, s, caps, k =>
    reMatch a s caps (fun s2 caps2 => k s2 ((i, s.take (s.length - s2.length)) :: caps2))

/-- Match `r` at the start of `s`, returning the matched prefix and the
captures. -/
def findAt (r : RE) (s : List Char) : Option (List Char × Caps) :=
  reMatch r s [] (fun s2 caps => some (s.take (s.length - s2.length), caps))

/-- Leftmost match of `r` in `s`: try each start position from the left, as
`regexp.FindStringSubmatch` does. -/
def findLeftmost (r : RE) : List Char → Option (List Char × Caps)
  | [] => findAt r []
  | c :: s =>
    match findAt r (c :: s) with
    | some res => some res
    | none => findLeftmost r s

/-- Character class [a-z0-9]. -/
def isLowerAlnum (c : Char) : Bool :=
  ('a'.toNat ≤ c.toNat && c.toNat ≤ 'z'.toNat) ||
  ('0'.toNat ≤ c.toNat && c.toNat ≤ '9'.toNat)

/-- Character class [0-9]. -/
def isDigitCh (c : Char) : Bool :=
  '0'.toNat ≤ c.toNat && c.toNat ≤ '9'.toNat

/-- The class matched by `.` (any character but newline). -/
def isNotNewline (c : Char) : Bool := c != '\n'

/-- Concatenation of a list of regexes. -/
def reSeq (l : List RE) : RE := l.foldr RE.seq RE.eps

/-- The AST of `proxyNameRegex` (`http_proxy.go` line 69):
`(fp-([a-z0-9]+-)?([a-z0-9]+)-[0-9]\x7b8\x7d-[0-9]+)(-.+)?` with capturing
groups numbered 1 to 4 as Go numbers them. -/
def proxyNameRE : RE :=
  RE.seq
    (RE.group 1 (reSeq [
        RE.lit 'f', RE.lit 'p', RE.lit '-',
        RE.opt (RE.group 2 (RE.seq (RE.plusCls isLowerAlnum) (RE.lit '-'))),
        RE.group 3 (RE.plusCls isLowerAlnum),
        RE.lit '-',
        RE.repCls isDigitCh 8,
        RE.lit '-',
        RE.plusCls isDigitCh]))
    (RE.opt (RE.group 4 (RE.seq (RE.lit '-') (RE.plusCls isNotNewline))))

/-- The capture of group `i` as a string; a group that did not participate in
the match yields "", as in Go's submatch slice. -/
def capStr (caps : Caps) (i : Nat) : String :=
  match caps.lookup i with
  | some l => String.mk l
  | none => ""

/-- `proxyNameRegex.FindStringSubmatch(hostname)`: the empty list models Go's
nil result when there is no match; on a match the result is the full match
followed by the four group captures, always five entries. -/
def findStringSubmatch (hostname : String) : List String :=
  match findLeftmost proxyNameRE hostname.toList with
  | none => []
  | some (m0, caps) =>
    [String.mk m0, capStr caps 1, capStr caps 2, capStr caps 3, capStr caps 4]

/-- `proxyName` (`http_proxy.go` lines 488-495): return `match[1]` (the name)
and `match[3]` (the datacenter) when the submatch slice has exactly five
entries, and a pair of empty strings otherwise. -/
def proxyName (hostname : String) : String × String :=
  let m := findStringSubmatch hostname
  if m.length ≠ 5 then ("", "")
  else (m.getD 1 "", m.getD 3 "")

theorem getLast?_append_right {α : Type} (l m : List α) (b : α)
    (h : m.getLast? = some b) : (l ++ m).getLast? = some b := by
  rw [List.getLast?_append, h]
  rfl

theorem getLast?_cons_of_getLast? {α : Type} (a : α) (l : List α) (b : α)
    (h : l.getLast? = some b) : (a :: l).getLast? = some b := by
  rw [show a :: l = [a] ++ l from rfl]
  exact getLast?_append_right [a] l b h

theorem createFilterChain_getLast (p : Proxy) (vok : Bool) :
    (createFilterChain p vok).getLast? = some ProxyFilter.cleanHeaders := by
  unfold createFilterChain
  exact getLast?_append_right _ _ _ rfl

theorem setBenchmarkMode_WSSAddr (p : Proxy) :
    (setBenchmarkMode p).WSSAddr = p.WSSAddr := by
  unfold setBenchmarkMode
  split <;> rfl

theorem assembleChain_getLast_no_wss (p : Proxy) (vok : Bool) (h : p.WSSAddr = "") :
    (assembleChain p vok).getLast? = some ProxyFilter.cleanHeaders := by
  simp only [assembleChain, setBenchmarkMode_WSSAddr, h, ne_eq, not_true_eq_false,
    if_false, ite_false]
  split
  · exact getLast?_cons_of_getLast? _ _ _
      (getLast?_cons_of_getLast? _ _ _ (createFilterChain_getLast _ vok))
  · exact getLast?_cons_of_getLast? _ _ _ (createFilterChain_getLast _ vok)

theorem assembleChain_getLast_wss (p : Proxy) (vok : Bool) (h : p.WSSAddr ≠ "") :
    (assembleChain p vok).getLast? = some ProxyFilter.wssMiddleware := by
  simp only [assembleChain, setBenchmarkMode_WSSAddr, h, ne_eq, not_false_eq_true,
    if_true, ite_true]
  exact getLast?_cons_of_getLast? _ _ _
    (getLast?_append_right _ [ProxyFilter.wssMiddleware] ProxyFilter.wssMiddleware rfl)

/-- C1 (amended): the header-sanitization filter is always the last element
of the chain constructed by `createFilterChain`, and it remains the last
element of the fully assembled chain when no WSS address is configured; when a
WSS address is configured, however, `ListenAndServe` appends the WSS
middleware after it, so the WSS middleware is the last element. -/
theorem c1_cleanHeaders_terminal (p : Proxy) (vok : Bool) :
    (createFilterChain p vok).getLast? = some ProxyFilter.cleanHeaders ∧
    (p.WSSAddr = "" → (assembleChain p vok).getLast? = some ProxyFilter.cleanHeaders) ∧
    (p.WSSAddr ≠ "" → (assembleChain p vok).getLast? = some ProxyFilter.wssMiddleware) :=
  ⟨createFilterChain_getLast p vok,
   assembleChain_getLast_no_wss p vok,
   assembleChain_getLast_wss p vok⟩

/-- C1 counterexample: with a WSS address configured, the fully assembled
filter chain does not end with the header-sanitization filter — the WSS
middleware is appended after it in `ListenAndServe`. -/
theorem c1_counterexample :
    (assembleChain { WSSAddr := "wss-addr" } true).getLast? = some ProxyFilter.wssMiddleware ∧
    (assembleChain { WSSAddr := "wss-addr" } true).getLast? ≠ some ProxyFilter.cleanHeaders := by
  decide

/-- C1 witness: the amended theorem applied at a configuration with a WSS
address and at one without. -/
theorem c1_witness :
    (assembleChain { WSSAddr := "w" } false).getLast? = some ProxyFilter.wssMiddleware ∧
    (assembleChain ({} : Proxy) false).getLast? = some ProxyFilter.cleanHeaders :=
  ⟨(c1_cleanHeaders_terminal { WSSAddr := "w" } false).2.2 (by decide),
   (c1_cleanHeaders_terminal ({} : Proxy) false).2.1 rfl⟩

/-- C3: benchmark mode, and only benchmark mode, forces HTTPS on and forces
the token to "bench" before the chain is built, and swaps the
first-request-only token-authentication filter for the rate-limiting filter;
with benchmark mode off, HTTPS and the token are left as configured and the
chain contains the token-authentication filter but not the rate-limiting
filter. -/
theorem c3_benchmark_mode (p : Proxy) (vok : Bool) :
    (p.Benchmark = true →
      (setBenchmarkMode p).HTTPS = true ∧ (setBenchmarkMode p).Token = "bench" ∧
      ProxyFilter.rateLimit ∈ createFilterChain (setBenchmarkMode p) vok ∧
      (∀ t, ProxyFilter.onFirstOnly (ProxyFilter.tokenFilter t) ∉
        createFilterChain (setBenchmarkMode p) vok)) ∧
    (p.Benchmark = false →
      (setBenchmarkMode p).HTTPS = p.HTTPS ∧ (setBenchmarkMode p).Token = p.Token ∧
      ProxyFilter.onFirstOnly (ProxyFilter.tokenFilter p.Token) ∈
        createFilterChain (setBenchmarkMode p) vok ∧
      ProxyFilter.rateLimit ∉ createFilterChain (setBenchmarkMode p) vok) := by
  cases hb : p.Benchmark <;>
    cases ht : p.TestingLocal <;>
      cases hv : p.VersionCheck <;>
        cases vok <;>
          simp [setBenchmarkMode, createFilterChain, hb, ht, hv]

/-- C3 witness: the theorem applied with benchmark mode on (one concrete
token probed for absence) and with benchmark mode off. -/
theorem c3_witness :
    ((setBenchmarkMode { Benchmark := true }).HTTPS = true ∧
     (setBenchmarkMode { Benchmark := true }).Token = "bench" ∧
     ProxyFilter.rateLimit ∈ createFilterChain (setBenchmarkMode { Benchmark := true }) true ∧
     ProxyFilter.onFirstOnly (ProxyFilter.tokenFilter "secret") ∉
       createFilterChain (setBenchmarkMode { Benchmark := true }) true) ∧
    (ProxyFilter.onFirstOnly (ProxyFilter.tokenFilter "secret") ∈
       createFilterChain (setBenchmarkMode { Token := "secret" }) true ∧
     ProxyFilter.rateLimit ∉ createFilterChain (setBenchmarkMode { Token := "secret" }) true) := by
  have h1 := (c3_benchmark_mode { Benchmark := true } true).1 rfl
  have h2 := (c3_benchmark_mode { Token := "secret" } true).2 rfl
  exact ⟨⟨h1.1, h1.2.1, h1.2.2.1, h1.2.2.2 "secret"⟩, ⟨h2.2.2.1, h2.2.2.2⟩⟩

/-- C2: whenever `PsmuxDisablePadding` is set, `buildPsmuxProtocol` zeroes
all four padding fields of the resulting configuration, whatever the library
defaults and whatever (possibly non-zero) padding overrides are supplied. -/
theorem c2_psmux_disable_padding (d : PsmuxConfig) (p : Proxy)
    (h : p.PsmuxDisablePadding = true) :
    (buildPsmuxConfig d p).MaxPaddingRatio = 0 ∧
    (buildPsmuxConfig d p).MaxPaddedSize = 0 ∧
    (buildPsmuxConfig d p).AggressivePadding = 0 ∧
    (buildPsmuxConfig d p).AggressivePaddingRatio = 0 ∧
    buildPsmuxProtocol d p = Except.ok (CmuxProtocol.psmux (buildPsmuxConfig d p)) := by
  refine ⟨?_, ?_, ?_, ?_, rfl⟩ <;> simp [buildPsmuxConfig, h]

/-- C2 witness: the theorem applied with non-trivial library defaults and
non-zero overrides for every padding-related field. -/
theorem c2_witness :
    (buildPsmuxConfig
      { Version := 2, MaxFrameSize := 1, MaxReceiveBuffer := 1, MaxStreamBuffer := 1,
        MaxPaddingRatio := 1/2, MaxPaddedSize := 64, AggressivePadding := 32,
        AggressivePaddingRatio := 3/4 }
      { PsmuxDisablePadding := true, PsmuxMaxPaddingRatio := 1/4, PsmuxMaxPaddedSize := 128,
        PsmuxAggressivePadding := 16, PsmuxAggressivePaddingRatio := 1/8 }).MaxPaddingRatio = 0 ∧
    (buildPsmuxConfig
      { Version := 2, MaxFrameSize := 1, MaxReceiveBuffer := 1, MaxStreamBuffer := 1,
        MaxPaddingRatio := 1/2, MaxPaddedSize := 64, AggressivePadding := 32,
        AggressivePaddingRatio := 3/4 }
      { PsmuxDisablePadding := true, PsmuxMaxPaddingRatio := 1/4, PsmuxMaxPaddedSize := 128,
        PsmuxAggressivePadding := 16, PsmuxAggressivePaddingRatio := 1/8 }).MaxPaddedSize = 0 ∧
    (buildPsmuxConfig
      { Version := 2, MaxFrameSize := 1, MaxReceiveBuffer := 1, MaxStreamBuffer := 1,
        MaxPaddingRatio := 1/2, MaxPaddedSize := 64, AggressivePadding := 32,
        AggressivePaddingRatio := 3/4 }
      { PsmuxDisablePadding := true, PsmuxMaxPaddingRatio := 1/4, PsmuxMaxPaddedSize := 128,
        PsmuxAggressivePadding := 16, PsmuxAggressivePaddingRatio := 1/8 }).AggressivePadding = 0 ∧
    (buildPsmuxConfig
      { Version := 2, MaxFrameSize := 1, MaxReceiveBuffer := 1, MaxStreamBuffer := 1,
        MaxPaddingRatio := 1/2, MaxPaddedSize := 64, AggressivePadding := 32,
        AggressivePaddingRatio := 3/4 }
      { PsmuxDisablePadding := true, PsmuxMaxPaddingRatio := 1/4, PsmuxMaxPaddedSize := 128,
        PsmuxAggressivePadding := 16, PsmuxAggressivePaddingRatio := 1/8 }).AggressivePaddingRatio = 0 := by
  have h := c2_psmux_disable_padding
    { Version := 2, MaxFrameSize := 1, MaxReceiveBuffer := 1, MaxStreamBuffer := 1,
      MaxPaddingRatio := 1/2, MaxPaddedSize := 64, AggressivePadding := 32,
      AggressivePaddingRatio := 3/4 }
    { PsmuxDisablePadding := true, PsmuxMaxPaddingRatio := 1/4, PsmuxMaxPaddedSize := 128,
      PsmuxAggressivePadding := 16, PsmuxAggressivePaddingRatio := 1/8 } rfl
  exact ⟨h.1, h.2.1, h.2.2.1, h.2.2.2.1⟩

/-- C6: `wrapMultiplexing` (given a successfully built inner listener) uses
the smux protocol when the configured name is empty or exactly "smux", the
psmux protocol exactly when the name is "psmux", and returns an error (no
listener) for every other name. -/
theorem c6_multiplex_selector (p : Proxy) (sd : SmuxConfig) (pd : PsmuxConfig)
    (fn : String → Except String Listener) (addr : String) (l : Listener)
    (hfn : fn addr = Except.ok l) :
    ((p.MultiplexProtocol = "" ∨ p.MultiplexProtocol = "smux") →
      wrapMultiplexing p sd pd fn addr =
        Except.ok (Listener.cmux (CmuxProtocol.smux (buildSmuxConfig sd p)) l)) ∧
    (p.MultiplexProtocol = "psmux" →
      wrapMultiplexing p sd pd fn addr =
        Except.ok (Listener.cmux (CmuxProtocol.psmux (buildPsmuxConfig pd p)) l)) ∧
    (p.MultiplexProtocol ≠ "" → p.MultiplexProtocol ≠ "smux" → p.MultiplexProtocol ≠ "psmux" →
      wrapMultiplexing p sd pd fn addr =
        Except.error ("unknown multiplex protocol: " ++ p.MultiplexProtocol)) := by
  refine ⟨fun h => ?_, fun h => ?_, fun h1 h2 h3 => ?_⟩ <;>
    simp only [wrapMultiplexing, hfn]
  · rw [if_pos h]
    rfl
  · rw [if_neg (by rw [h]; rintro (hc | hc) <;> simp at hc), if_pos h]
    rfl
  · rw [if_neg (by rintro (hc | hc) <;> [exact h1 hc; exact h2 hc]), if_neg h3]

/-- C6 witness: the theorem applied for each of the three selector cases at
concrete configurations. -/
theorem c6_witness :
    wrapMultiplexing { MultiplexProtocol := "" } ⟨1, 2, 3, 4⟩
        ⟨1, 2, 3, 4, 0, 0, 0, 0⟩ (fun a => Except.ok (Listener.base a)) "x" =
      Except.ok (Listener.cmux
        (CmuxProtocol.smux (buildSmuxConfig ⟨1, 2, 3, 4⟩ { MultiplexProtocol := "" }))
        (Listener.base "x")) ∧
    wrapMultiplexing { MultiplexProtocol := "psmux" } ⟨1, 2, 3, 4⟩
        ⟨1, 2, 3, 4, 0, 0, 0, 0⟩ (fun a => Except.ok (Listener.base a)) "x" =
      Except.ok (Listener.cmux
        (CmuxProtocol.psmux (buildPsmuxConfig ⟨1, 2, 3, 4, 0, 0, 0, 0⟩
          { MultiplexProtocol := "psmux" }))
        (Listener.base "x")) ∧
    wrapMultiplexing { MultiplexProtocol := "bogus" } ⟨1, 2, 3, 4⟩
        ⟨1, 2, 3, 4, 0, 0, 0, 0⟩ (fun a => Except.ok (Listener.base a)) "x" =
      Except.error "unknown multiplex protocol: bogus" :=
  ⟨(c6_multiplex_selector { MultiplexProtocol := "" } ⟨1, 2, 3, 4⟩ ⟨1, 2, 3, 4, 0, 0, 0, 0⟩
      (fun a => Except.ok (Listener.base a)) "x" (Listener.base "x") rfl).1 (Or.inl rfl),
   (c6_multiplex_selector { MultiplexProtocol := "psmux" } ⟨1, 2, 3, 4⟩ ⟨1, 2, 3, 4, 0, 0, 0, 0⟩
      (fun a => Except.ok (Listener.base a)) "x" (Listener.base "x") rfl).2.1 rfl,
   (c6_multiplex_selector { MultiplexProtocol := "bogus" } ⟨1, 2, 3, 4⟩ ⟨1, 2, 3, 4, 0, 0, 0, 0⟩
      (fun a => Except.ok (Listener.base a)) "x" (Listener.base "x") rfl).2.2
      (by decide) (by decide) (by decide)⟩

/-- C7: registering a transport with an empty listen address is a no-op (no
acceptor created, nothing appended, no error); with a non-empty address and a
successful builder, exactly the produced listener and its protocol label are
appended. -/
theorem c7_register_no_op (proto addr : String) (fn : String → Except String Listener)
    (st : RegState) :
    (addr = "" → addListenerIfNecessary proto addr fn st = Except.ok st) ∧
    (∀ l, addr ≠ "" → fn addr = Except.ok l →
      addListenerIfNecessary proto addr fn st =
        Except.ok { listenerProtocols := st.listenerProtocols ++ [proto],
                    allListeners := st.allListeners ++ [l] }) := by
  constructor
  · intro h
    simp [addListenerIfNecessary, h]
  · intro l h hfn
    simp [addListenerIfNecessary, h, hfn]

/-- C7 witness: the theorem applied to an empty and to a non-empty address. -/
theorem c7_witness :
    addListenerIfNecessary "kcp" "" (fun a => Except.ok (Listener.base a))
      { listenerProtocols := ["https"], allListeners := [Listener.base "h"] } =
      Except.ok { listenerProtocols := ["https"], allListeners := [Listener.base "h"] } ∧
    addListenerIfNecessary "kcp" "conf" (fun a => Except.ok (Listener.base a))
      { listenerProtocols := ["https"], allListeners := [Listener.base "h"] } =
      Except.ok { listenerProtocols := ["https", "kcp"],
                  allListeners := [Listener.base "h", Listener.base "conf"] } :=
  ⟨(c7_register_no_op "kcp" "" (fun a => Except.ok (Listener.base a))
      { listenerProtocols := ["https"], allListeners := [Listener.base "h"] }).1 rfl,
   (c7_register_no_op "kcp" "conf" (fun a => Except.ok (Listener.base a))
      { listenerProtocols := ["https"], allListeners := [Listener.base "h"] }).2
      (Listener.base "conf") (by decide) rfl⟩

/-- C4 (amended): when wrapping the OBFS4 transport fails, `listenOBFS4`
returns an error; the registry call for that transport fails with that error,
and `addListenersForBaseTransport` — and hence `ListenAndServe` — propagates
it, so the remaining transports are not registered and startup aborts. -/
theorem c4_obfs4_wrap_fatal (p : Proxy) (sd : SmuxConfig) (pd : PsmuxConfig)
    (obfs4Wrap tlsWrap : Listener → Except String Listener)
    (baseListen : String → Bool → Except String Listener)
    (addrs : Addresses) (st : RegState) (l : Listener) (e : String)
    (ha : addrs.obfs4 ≠ "") (hb : baseListen addrs.obfs4 true = Except.ok l)
    (hw : obfs4Wrap l = Except.error e) :
    addListenersForBaseTransport p sd pd obfs4Wrap tlsWrap baseListen addrs st =
      Except.error ("Unable to wrap listener with OBFS4: " ++ e) := by
  have h1 : listenOBFS4 obfs4Wrap baseListen addrs.obfs4 =
      Except.error ("Unable to wrap listener with OBFS4: " ++ e) := by
    simp [listenOBFS4, hb, hw]
  have h2 : addListenerIfNecessary "obfs4" addrs.obfs4
      (listenOBFS4 obfs4Wrap baseListen) st =
      Except.error ("Unable to wrap listener with OBFS4: " ++ e) := by
    simp [addListenerIfNecessary, ha, h1]
  simp [addListenersForBaseTransport, h2, bind, Except.bind]

/-- C4 counterexample: with an OBFS4 address configured and key material the
OBFS4 wrapper rejects, the whole registration run returns the OBFS4 error —
the lampshade transport configured alongside it is never registered and
startup does not continue, contrary to the claim. -/
theorem c4_counterexample :
    addListenersForBaseTransport ({} : Proxy) ⟨0, 0, 0, 0⟩ ⟨0, 0, 0, 0, 0, 0, 0, 0⟩
      (fun _ => Except.error "invalid key material")
      (fun l => Except.ok (Listener.tls l))
      (fun a _ => Except.ok (Listener.base a))
      { obfs4 := "o1", obfs4Multiplex := "", http := "", httpMultiplex := "",
        lampshade := "l1", tlsmasq := "" }
      { listenerProtocols := [], allListeners := [] } =
      Except.error "Unable to wrap listener with OBFS4: invalid key material" := by
  rfl

/-- C4 witness: the amended theorem applied at a concrete configuration with
a failing OBFS4 wrapper. -/
theorem c4_witness :
    addListenersForBaseTransport ({} : Proxy) ⟨1, 1, 1, 1⟩ ⟨1, 1, 1, 1, 0, 0, 0, 0⟩
      (fun _ => Except.error "bad key")
      (fun l => Except.ok (Listener.tls l))
      (fun a _ => Except.ok (Listener.base a))
      { obfs4 := "ob", obfs4Multiplex := "", http := "h", httpMultiplex := "",
        lampshade := "ls", tlsmasq := "" }
      { listenerProtocols := [], allListeners := [] } =
      Except.error "Unable to wrap listener with OBFS4: bad key" :=
  c4_obfs4_wrap_fatal ({} : Proxy) ⟨1, 1, 1, 1⟩ ⟨1, 1, 1, 1, 0, 0, 0, 0⟩
    (fun _ => Except.error "bad key")
    (fun l => Except.ok (Listener.tls l))
    (fun a _ => Except.ok (Listener.base a))
    { obfs4 := "ob", obfs4Multiplex := "", http := "h", httpMultiplex := "",
      lampshade := "ls", tlsmasq := "" }
    { listenerProtocols := [], allListeners := [] }
    (Listener.base "ob") "bad key" (by decide) rfl rfl

/-- C5 (spec-modelled): a non-CONNECT request to a host matching the upgrade
policy has its scheme rewritten to https and its host rewritten to the
hostname with port 443; a CONNECT request is left unchanged; a request whose
host does not match the policy is left unchanged. -/
theorem c5_https_upgrade (policy : String → Bool) (req : Request) :
    (req.method ≠ "CONNECT" → policy (hostWithoutPort req.host) = true →
      httpsUpgradeApply policy req =
        { req with urlScheme := "https", host := hostWithoutPort req.host ++ ":443" }) ∧
    (req.method = "CONNECT" → httpsUpgradeApply policy req = req) ∧
    (policy (hostWithoutPort req.host) = false → httpsUpgradeApply policy req = req) := by
  refine ⟨fun h1 h2 => ?_, fun h => ?_, fun h => ?_⟩ <;> unfold httpsUpgradeApply
  · rw [if_pos ⟨h1, h2⟩]
  · rw [if_neg]
    rintro ⟨hc, _⟩
    exact hc h
  · rw [if_neg]
    rintro ⟨_, hc⟩
    rw [h] at hc
    cases hc

/-- C5 witness: the theorem applied at the three scenarios named in the
claim - an upgrade-able GET, a CONNECT, and a host outside the policy. -/
theorem c5_witness :
    httpsUpgradeApply upgPolicy
        { method := "GET", urlScheme := "http", host := "config.example.org:80" } =
      { method := "GET", urlScheme := "https", host := "config.example.org:443" } ∧
    httpsUpgradeApply upgPolicy
        { method := "CONNECT", urlScheme := "http", host := "api.example.org" } =
      { method := "CONNECT", urlScheme := "http", host := "api.example.org" } ∧
    httpsUpgradeApply upgPolicy
        { method := "GET", urlScheme := "http", host := "not-configured.org" } =
      { method := "GET", urlScheme := "http", host := "not-configured.org" } := by
  refine ⟨?_, ?_, ?_⟩
  · exact ((c5_https_upgrade upgPolicy
      { method := "GET", urlScheme := "http", host := "config.example.org:80" }).1
        (by decide) (by decide)).trans (by decide)
  · exact (c5_https_upgrade upgPolicy
      { method := "CONNECT", urlScheme := "http", host := "api.example.org" }).2.1 rfl
  · exact (c5_https_upgrade upgPolicy
      { method := "GET", urlScheme := "http", host := "not-configured.org" }).2.2 (by decide)

/-- C8: a ping request with header value "small" is answered 200 with
exactly one write of the fixed 1 KB payload and updates the small-response
moving average; a non-empty header value other than "small"/"medium"/"large"
is answered 400 with no payload write and no moving-average update; a request
without the header passes through. -/
theorem c8_ping_filter (payload : List Char) (hdr : String)
    (hlen : payload.length = 1024) (h1 : hdr ≠ "") (h2 : hdr ≠ "small")
    (h3 : hdr ≠ "medium") (h4 : hdr ≠ "large") :
    pingServeHTTP "small" = PingOutcome.reply 200 1 (some PingSize.small) ∧
    pingBody payload (pingServeHTTP "small") = payload ∧
    (pingBody payload (pingServeHTTP "small")).length = 1024 ∧
    pingServeHTTP hdr = PingOutcome.reply 400 0 none ∧
    pingServeHTTP "" = PingOutcome.passThrough := by
  have hb : pingBody payload (pingServeHTTP "small") = payload := by
    simp [pingServeHTTP, pingBody]
  refine ⟨rfl, hb, by rw [hb, hlen], ?_, rfl⟩
  unfold pingServeHTTP
  rw [if_neg h1, if_neg h2, if_neg h3, if_neg h4]

/-- C8 witness: the theorem applied with a concrete 1024-character payload
and the unrecognized header value "tiny". -/
theorem c8_witness :
    pingServeHTTP "small" = PingOutcome.reply 200 1 (some PingSize.small) ∧
    pingBody (List.replicate 1024 'a') (pingServeHTTP "small") = List.replicate 1024 'a' ∧
    (pingBody (List.replicate 1024 'a') (pingServeHTTP "small")).length = 1024 ∧
    pingServeHTTP "tiny" = PingOutcome.reply 400 0 none ∧
    pingServeHTTP "" = PingOutcome.passThrough :=
  c8_ping_filter (List.replicate 1024 'a') "tiny" (by rw [List.length_replicate])
    (by decide) (by decide) (by decide) (by decide)

/-- C9: `proxyName` returns a pair of strings that are both empty when the
regex yields no match (equivalently, when the submatch slice does not have
exactly five entries), and otherwise returns the whole-name capture (group 1)
and the datacenter capture (group 3); on every match the submatch slice has
exactly five entries. -/
theorem c9_proxyName_spec (hostname : String) :
    (findLeftmost proxyNameRE hostname.toList = none → proxyName hostname = ("", "")) ∧
    (∀ m0 caps, findLeftmost proxyNameRE hostname.toList = some (m0, caps) →
      (findStringSubmatch hostname).length = 5 ∧
      proxyName hostname = (capStr caps 1, capStr caps 3)) := by
  constructor
  · intro h
    have h2 : findLeftmost proxyNameRE hostname.data = none := h
    simp [proxyName, findStringSubmatch, h2]
  · intro m0 caps h
    have h2 : findLeftmost proxyNameRE hostname.data = some (m0, caps) := h
    simp [proxyName, findStringSubmatch, h2]

/-- C9 witness: the theorem applied to a hostname that does not follow the
naming convention. -/
theorem c9_witness : proxyName "server.example.com" = ("", "") :=
  (c9_proxyName_spec "server.example.com").1 rfl

theorem proxyName_convention_example :
    proxyName "fp-abc-12345678-1" = ("fp-abc-12345678-1", "abc") := by
  decide

theorem proxyName_dc_example :
    proxyName "fp-obfs4-donyc3-20191211-006" = ("fp-obfs4-donyc3-20191211-006", "donyc3") := by
  decide

theorem lookup_filter_self (u : String) (l : List (String × String)) :
    (l.filter (fun kv => kv.1 != u)).lookup u = none := by
  induction l with
  | nil => rfl
  | cons kv t ih =>
    rcases kv with ⟨k, w⟩
    by_cases h : k = u
    · simp [List.filter_cons, h, ih]
    · have hbeq : (u == k) = false := beq_eq_false_iff_ne.mpr (Ne.symm h)
      simp [List.filter_cons, h, List.lookup, hbeq, ih]

theorem lookup_filter_other (u v : String) (l : List (String × String)) (hvu : v ≠ u) :
    (l.filter (fun kv => kv.1 != u)).lookup v = l.lookup v := by
  induction l with
  | nil => rfl
  | cons kv t ih =>
    rcases kv with ⟨k, w⟩
    by_cases h : k = u
    · subst h
      have hbeq : (v == k) = false := beq_eq_false_iff_ne.mpr hvu
      simp [List.filter_cons, List.lookup, hbeq, ih]
    · by_cases hvk : v = k
      · simp [List.filter_cons, h, List.lookup, hvk, ih]
      · have hbeq : (v == k) = false := beq_eq_false_iff_ne.mpr hvk
        simp [List.filter_cons, h, List.lookup, hbeq, ih]

/-- C10: `processUserRemoveMessage` errors and leaves the token map
untouched when the message does not have exactly two parts or the named user
is absent; otherwise it succeeds, removing exactly that user's entry and
preserving every other user's lookup. -/
theorem c10_user_remove (msg : List String) (userTokens : List (String × String)) :
    ((msg.length ≠ 2 ∨ userTokens.lookup (msg.getD 1 "") = none) →
      ∃ e, processUserRemoveMessage msg userTokens = (Except.error e, userTokens)) ∧
    (∀ tok, msg.length = 2 → userTokens.lookup (msg.getD 1 "") = some tok →
      processUserRemoveMessage msg userTokens =
        (Except.ok (), userTokens.filter (fun kv => kv.1 != msg.getD 1 "")) ∧
      (userTokens.filter (fun kv => kv.1 != msg.getD 1 "")).lookup (msg.getD 1 "") = none ∧
      (∀ u, u ≠ msg.getD 1 "" →
        (userTokens.filter (fun kv => kv.1 != msg.getD 1 "")).lookup u =
          userTokens.lookup u)) := by
  constructor
  · intro h
    by_cases hl : msg.length = 2
    · rcases h with h | h
      · exact absurd hl h
      · refine ⟨"User in REMOVE message was not assigned to server", ?_⟩
        unfold processUserRemoveMessage
        rw [if_neg (fun hc => hc hl)]
        simp only [h]
    · exact ⟨"Malformed REMOVE message", by unfold processUserRemoveMessage; rw [if_pos hl]⟩
  · intro tok hl hk
    refine ⟨?_, lookup_filter_self _ _, fun u hu => lookup_filter_other _ u _ hu⟩
    unfold processUserRemoveMessage
    rw [if_neg (fun hc => hc hl)]
    simp only [hk]

/-- C10 witness: the theorem applied to a well-formed REMOVE message for a
present user, and to a malformed message. -/
theorem c10_witness :
    processUserRemoveMessage ["USER-REMOVE", "u1"] [("u1", "t1"), ("u2", "t2")] =
      (Except.ok (), [("u2", "t2")]) ∧
    processUserRemoveMessage ["USER-REMOVE"] [("u1", "t1")] =
      (Except.error "Malformed REMOVE message", [("u1", "t1")]) := by
  have h := (c10_user_remove ["USER-REMOVE", "u1"] [("u1", "t1"), ("u2", "t2")]).2
    "t1" rfl rfl
  exact ⟨h.1.trans (by rfl), by rfl⟩
